import Mathlib

/-!
Shallow embedding of `src/lib.rs` of the tui-dashboard repository.

The layout compositor (`Dashboard` and its four renderers) is embedded as
pure Lean functions.  The external collaborators excluded by the design —
the proportional split primitive, the cell buffer, and the low-level text
and table widgets — are kept abstract: the splitter is a parameter
`Splitter`, buffer writes are reified as a list of `DrawCmd` values, and
the display-width measurement performed by the external text library is a
parameter `w : String → Nat` (for ASCII text the display width of a string
equals its character count, i.e. `String.length`).

Rust `u16` arithmetic (the `as u16` casts and the `u16`-typed title/height
computations in the source) is modelled with explicit wraparound modulo
2 ^ 16 = 65536, the release-build semantics of integer overflow.
-/

namespace TuiDashboard

/-- Reduction modulo 2 ^ 16, modelling Rust `u16` values and casts. -/
def u16 (n : Nat) : Nat := n % 65536

/-- A rectangle of the character grid (ratatui `Rect`). -/
structure RRect where
  x : Nat
  y : Nat
  width : Nat
  height : Nat
deriving DecidableEq

/-- The colors used by `src/lib.rs`. -/
inductive RColor where
  | lightRed
  | blue
  | lightBlue
  | cyan
  | lightCyan
deriving DecidableEq

/-- A ratatui `Style`: optional foreground color plus the three modifiers
used by the source. -/
structure RStyle where
  fg : Option RColor := none
  bold : Bool := false
  italic : Bool := false
  underlined : Bool := false
deriving DecidableEq

/-- `Stylize` color call on a style: sets the foreground. -/
def RStyle.withFg (st : RStyle) (c : RColor) : RStyle := { st with fg := some c }

/-- `Stylize::bold` on a style. -/
def RStyle.withBold (st : RStyle) : RStyle := { st with bold := true }

/-- `Stylize::italic` on a style. -/
def RStyle.withItalic (st : RStyle) : RStyle := { st with italic := true }

/-- `Stylize::underlined` on a style. -/
def RStyle.withUnderlined (st : RStyle) : RStyle := { st with underlined := true }

/-- The emphasized style `Style::default().italic().bold().underlined()`
built at line 137 of `src/lib.rs` for the selected row. -/
def emphasizedStyle : RStyle := ((({} : RStyle).withItalic).withBold).withUnderlined

/-- A ratatui `Span`: a piece of text with one style. -/
structure RSpan where
  content : String
  style : RStyle := {}
deriving DecidableEq

/-- `Stylize` color call on a string, e.g. `"x".blue()`: a span whose style
is the default style with that foreground color. -/
def strColored (c : RColor) (s : String) : RSpan :=
  { content := s, style := ({} : RStyle).withFg c }

/-- ratatui `Span::style`: replaces the span's style wholesale. -/
def RSpan.setStyle (sp : RSpan) (st : RStyle) : RSpan := { sp with style := st }

/-- `Stylize::bold` on a span: patches the span's style with the bold
modifier. -/
def RSpan.bolded (sp : RSpan) : RSpan := { sp with style := sp.style.withBold }

/-- A ratatui `Line`: a list of spans plus a line-level style. -/
structure RLine where
  spans : List RSpan := []
  style : RStyle := {}
deriving DecidableEq

/-- `Line::raw`: one unstyled span holding the whole text. -/
def RLine.raw (s : String) : RLine := { spans := [{ content := s }] }

/-- ratatui `Line::style`: replaces the line-level style. -/
def RLine.setStyle (l : RLine) (st : RStyle) : RLine := { l with style := st }

/-- `Line::width` relative to a display-width measurement `w` on span
contents: the sum of the widths of the spans. -/
def RLine.widthW (w : String → Nat) (l : RLine) : Nat :=
  (l.spans.map (fun sp => w sp.content)).sum

/-- The layout constraints used by the source: `==n` (a fixed number of
cells, ratatui `Constraint::Length`, a `u16`) and `==p%`
(`Constraint::Percentage`). -/
inductive RConstraint where
  | length (cells : Nat)
  | percentage (p : Nat)
deriving DecidableEq

/-- Split direction of a ratatui `Layout`. -/
inductive RDir where
  | horizontal
  | vertical
deriving DecidableEq

/-- The flex modes used by the source (`Flex::Start` is the default). -/
inductive RFlex where
  | start
  | center
deriving DecidableEq

/-- One invocation of the external split primitive: a direction, an ordered
constraint list, a flex mode, margins, and the rectangle being split. -/
structure SplitReq where
  dir : RDir
  constraints : List RConstraint
  flex : RFlex := .start
  hMargin : Nat := 0
  vMargin : Nat := 0
  area : RRect
deriving DecidableEq

/-- The external split primitive, kept abstract: it returns the ordered
list of sub-rectangles for a request. -/
def Splitter := SplitReq → List RRect

/-- The contract the compositor relies on: the split primitive returns
exactly one sub-rectangle per constraint. -/
def SplitLenOk (s : Splitter) : Prop :=
  ∀ req, (s req).length = req.constraints.length

/-- A further property of the split primitive: a `Length c` constraint is
never granted more than `c` cells along the split direction. -/
def SplitLenBounded (s : Splitter) : Prop :=
  ∀ req i c r, req.constraints.get? i = some (RConstraint.length c) →
    (s req).get? i = some r →
    (req.dir = RDir.vertical → r.height ≤ c) ∧
    (req.dir = RDir.horizontal → r.width ≤ c)

/-- One row of the dashboard table (`TableItem` in `src/lib.rs`). -/
structure TableItem where
  left : String := ""
  right : String := ""
deriving DecidableEq

/-- Modelled from the spec: the external `Block` type is used by this
repository only as a decorative border spec — "present with custom style"
or "absent, use default bordered style" — so it is embedded as a bordered
frame carrying an opaque custom style. -/
structure RBlock where
  style : RStyle := {}
deriving DecidableEq

/-- `Block::bordered()`: the default bordered frame. -/
def RBlock.bordered : RBlock := {}

/-- ratatui `TableState`: a scroll offset and an optional selected index. -/
structure TableState where
  offset : Nat := 0
  selected : Option Nat := none
deriving DecidableEq

/-- The application state (`Dashboard` in `src/lib.rs`). -/
structure Dashboard where
  general_title : String := ""
  subtitle : String := ""
  avatar : String := ""
  avatar_block : Option RBlock := none
  table : List TableItem := []
  table_block : Option RBlock := none
  footer : List String := []
deriving DecidableEq

/-- The buffer writes the compositor performs, reified as data: each
constructor records one call into an external drawing routine together
with the target rectangle. -/
inductive DrawCmd where
  | bigText (line : RLine) (rect : RRect)
  | textLine (line : RLine) (rect : RRect)
  | table (cells : List (List RSpan)) (widths : List RConstraint)
      (highlightSymbol : String) (fg : Option RColor) (block : RBlock)
      (rect : RRect) (state : TableState)
  | paragraph (lines : List RLine) (block : Option RBlock) (centered : Bool)
      (style : RStyle) (rect : RRect)
deriving DecidableEq

/-- `split(..).to_vec().try_into().unwrap()` into a two-element array:
succeeds exactly when the split returned two sub-rectangles. -/
def toPair (l : List RRect) : Option (RRect × RRect) :=
  match l with
  | [a, b] => some (a, b)
  | _ => none

/-! ### Header renderer (`Dashboard::render_header`, lines 98-124) -/

/-- `vertical![==10%, ==5%].vertical_margin(1)` applied to the viewport. -/
def headerBandReq (area : RRect) : SplitReq :=
  { dir := .vertical, constraints := [.percentage 10, .percentage 5],
    vMargin := 1, area := area }

/-- `horizontal![==(title.chars().count() as u16 * 4)].flex(Flex::Center)`:
the character count is cast to `u16` and multiplied by 4 in `u16`. -/
def titleCenterReq (generalTitle : String) (top1 : RRect) : SplitReq :=
  { dir := .horizontal, constraints := [.length (u16 (u16 generalTitle.length * 4))],
    flex := .center, area := top1 }

/-- `horizontal![==(subtitle.chars().count() as u16)].flex(Flex::Center)`. -/
def subtitleCenterReq (subtitle : String) (top2 : RRect) : SplitReq :=
  { dir := .horizontal, constraints := [.length (u16 subtitle.length)],
    flex := .center, area := top2 }

/-- The split requests made by the header renderer plus its draw commands. -/
structure HeaderPlan where
  bandReq : SplitReq
  titleReq : SplitReq
  subtitleReq : SplitReq
  cmds : List DrawCmd
deriving DecidableEq

/-- `Dashboard::render_header`: splits the viewport into the title and
subtitle bands, centers a sub-rectangle in each, and renders the big-text
title (light red) and the subtitle (blue, bold).  `none` models a panic of
one of the unwrapped conversions. -/
def renderHeader (s : Splitter) (d : Dashboard) (area : RRect) : Option HeaderPlan := do
  let bandReq := headerBandReq area
  let (top1, top2) ← toPair (s bandReq)
  let titleReq := titleCenterReq d.general_title top1
  let topCenter1 ← (s titleReq).head?
  let subReq := subtitleCenterReq d.subtitle top2
  let topCenter2 ← (s subReq).head?
  let title := (RLine.raw d.general_title).setStyle (({} : RStyle).withFg .lightRed)
  let subtitle := (RLine.raw d.subtitle).setStyle ((({} : RStyle).withFg .blue).withBold)
  some { bandReq := bandReq, titleReq := titleReq, subtitleReq := subReq,
         cmds := [.bigText title topCenter1, .textLine subtitle topCenter2] }

/-! ### Table renderer (`Dashboard::render_table`, lines 126-163) -/

/-- The per-row style match at lines 136-139: the emphasized style exactly
when the selection cursor equals the row index, otherwise the default. -/
def rowStyle (selected : Option Nat) (idx : Nat) : RStyle :=
  match selected with
  | some i => if i = idx then emphasizedStyle else {}
  | none => {}

/-- The `to_line` closure at lines 135-143: a two-span line — the label
(`.blue().style(style)`, whose `Span::style` call replaces the color) and
the upper-cased value (`.light_red().bold()`) — with the row style applied
to the line. -/
def toLine (selected : Option Nat) (idx : Nat) (a : TableItem) : RLine :=
  let style := rowStyle selected idx
  let description := (strColored .blue a.left).setStyle style
  let keyboard := (strColored .lightRed a.right.toUpper).bolded
  ({ spans := [description, keyboard] } : RLine).setStyle style

/-- `self.table.iter().enumerate().map(to_line)`. -/
def tableLines (table : List TableItem) (selected : Option Nat) : List RLine :=
  table.enum.map (fun p => toLine selected p.1 p.2)

/-- The measuring loop at lines 147-152: `table_width` is the running
maximum of line width plus 2 (a `usize`), `table_height` counts the lines
in a `u16`. -/
def measureTable (w : String → Nat) (lines : List RLine) : Nat × Nat :=
  lines.foldl (fun acc l => (max acc.1 (l.widthW w + 2), u16 (acc.2 + 1))) (0, 0)

/-- `horizontal![==36%, ==57%].horizontal_margin(3)` applied to the
viewport. -/
def tableColumnsReq (area : RRect) : SplitReq :=
  { dir := .horizontal, constraints := [.percentage 36, .percentage 57],
    hMargin := 3, area := area }

/-- `vertical![==20%, ==table_height + 2]` applied to the working column;
the addition is performed on the `u16` row count. -/
def tableRegionReq (tableHeight : Nat) (main : RRect) : SplitReq :=
  { dir := .vertical, constraints := [.percentage 20, .length (u16 (tableHeight + 2))],
    area := main }

/-- `constraints![==95%, ==5%]`, the table's column widths. -/
def tableWidths : List RConstraint := [.percentage 95, .percentage 5]

/-- Everything the table renderer computes: its two split requests, the
rendered row lines, the measured intrinsic width and height, the column
widths, the block, the final region and the draw command. -/
structure TablePlan where
  hReq : SplitReq
  vReq : SplitReq
  rows : List RLine
  tableWidth : Nat
  tableHeight : Nat
  widths : List RConstraint
  block : RBlock
  tableRect : RRect
  cmd : DrawCmd
deriving DecidableEq

/-- `Dashboard::render_table`: carves the working column (skip 36 %, take
57 %, 3-cell horizontal inset), builds the styled row lines, measures
them, carves the final region (skip 20 %, take `table_height + 2` rows)
and renders the two-column table there.  The dashboard is returned as
well, mirroring the `&mut self` receiver of the source. -/
def renderTable (w : String → Nat) (s : Splitter) (d : Dashboard) (area : RRect)
    (state : TableState) : Option (TablePlan × Dashboard) := do
  let hReq := tableColumnsReq area
  let (_, main) ← toPair (s hReq)
  let lines := tableLines d.table state.selected
  let m := measureTable w lines
  let block := d.table_block.getD RBlock.bordered
  let vReq := tableRegionReq m.2 main
  let (_, mainRect) ← toPair (s vReq)
  let cmd := DrawCmd.table (lines.map RLine.spans) tableWidths " >> " (some .cyan)
    block mainRect state
  some ({ hReq := hReq, vReq := vReq, rows := lines, tableWidth := m.1,
          tableHeight := m.2, widths := tableWidths, block := block,
          tableRect := mainRect, cmd := cmd }, d)

/-! ### Avatar renderer (`Dashboard::render_avatar`, lines 165-186) -/

/-- Split a character list at every newline (the segments of Rust
`str::lines` before the trailing-segment and carriage-return fixups). -/
def splitNl : List Char → List (List Char)
  | [] => [[]]
  | c :: cs =>
    if c = '\n' then [] :: splitNl cs
    else
      match splitNl cs with
      | h :: t => (c :: h) :: t
      | [] => [[c]]

/-- Strip one trailing carriage return, as Rust `str::lines` does. -/
def stripCr (l : List Char) : List Char :=
  if l.getLast? = some '\x0d' then l.dropLast else l

/-- Rust `str::lines()`: split on newlines, drop the final empty segment
produced by a trailing newline (so the empty string has no lines), strip a
trailing carriage return from each line. -/
def rustLines (s : String) : List String :=
  let parts := splitNl s.data
  let parts := if parts.getLast? = some [] then parts.dropLast else parts
  parts.map (fun l => String.mk (stripCr l))

/-- Line 166: one light-blue line per avatar text line. -/
def avatarLines (avatar : String) : List RLine :=
  (rustLines avatar).map (fun i => { spans := [strColored .lightBlue i] })

/-- The measuring loop at lines 167-172: maximum line width and line
count (both `usize`). -/
def measureAvatar (w : String → Nat) (lines : List RLine) : Nat × Nat :=
  lines.foldl (fun acc l => (max acc.1 (l.widthW w), acc.2 + 1)) (0, 0)

/-- The maximum display width over the avatar text's lines. -/
def avatarMaxWidth (w : String → Nat) (avatar : String) : Nat :=
  ((rustLines avatar).map w).foldl max 0

/-- The number of lines of the avatar text. -/
def avatarLineCount (avatar : String) : Nat :=
  (rustLines avatar).length

/-- `horizontal![==8%, ==avatar_width as u16]` applied to the viewport. -/
def avatarColumnReq (avatarWidth : Nat) (area : RRect) : SplitReq :=
  { dir := .horizontal, constraints := [.percentage 8, .length (u16 avatarWidth)],
    area := area }

/-- `vertical![==20%, ==avatar_height as u16]` applied to the left column. -/
def avatarRowReq (avatarHeight : Nat) (left : RRect) : SplitReq :=
  { dir := .vertical, constraints := [.percentage 20, .length (u16 avatarHeight)],
    area := left }

/-- Everything the avatar renderer computes. -/
structure AvatarPlan where
  hReq : SplitReq
  vReq : SplitReq
  lines : List RLine
  avatarWidth : Nat
  avatarHeight : Nat
  block : RBlock
  rect : RRect
  cmd : DrawCmd
deriving DecidableEq

/-- `Dashboard::render_avatar`: measures the text's bounding box, carves a
region of exactly that size after an 8 % left and 20 % top margin, and
renders the lines in a bordered paragraph there. -/
def renderAvatar (w : String → Nat) (s : Splitter) (d : Dashboard) (area : RRect) :
    Option AvatarPlan := do
  let lines := avatarLines d.avatar
  let m := measureAvatar w lines
  let hReq := avatarColumnReq m.1 area
  let (_, left1) ← toPair (s hReq)
  let vReq := avatarRowReq m.2 left1
  let (_, left2) ← toPair (s vReq)
  let block := d.avatar_block.getD RBlock.bordered
  some { hReq := hReq, vReq := vReq, lines := lines, avatarWidth := m.1,
         avatarHeight := m.2, block := block, rect := left2,
         cmd := .paragraph lines (some block) false {} left2 }

/-! ### Footer renderer (`Dashboard::render_footer`, lines 187-197) -/

/-- `vertical![==95%, ==5%].vertical_margin(1)` applied to the viewport. -/
def footerReq (area : RRect) : SplitReq :=
  { dir := .vertical, constraints := [.percentage 95, .percentage 5],
    vMargin := 1, area := area }

/-- The footer renderer's split request and draw command. -/
structure FooterPlan where
  req : SplitReq
  cmd : DrawCmd
deriving DecidableEq

/-- `Dashboard::render_footer`: renders the footer lines centered, bold,
light cyan and italic in the bottom 5 % band. -/
def renderFooter (s : Splitter) (d : Dashboard) (area : RRect) : Option FooterPlan := do
  let req := footerReq area
  let (_, bottom) ← toPair (s req)
  let lines := d.footer.map RLine.raw
  some { req := req,
         cmd := .paragraph lines none true
           ((((({} : RStyle).withBold).withFg .lightCyan).withItalic)) bottom }

/-! ### Full render (`impl StatefulWidget for Dashboard`, lines 200-209) -/

/-- One full render call: header, table, avatar, footer, in source order.
Returns the complete list of draw commands together with the dashboard
value after the `&mut self` table call. -/
def Dashboard.render (w : String → Nat) (s : Splitter) (d : Dashboard) (area : RRect)
    (state : TableState) : Option (List DrawCmd × Dashboard) := do
  let hp ← renderHeader s d area
  let (tp, d1) ← renderTable w s d area state
  let ap ← renderAvatar w s d1 area
  let fp ← renderFooter s d1 area
  some (hp.cmds ++ [tp.cmd] ++ [ap.cmd] ++ [fp.cmd], d1)

/-- Applying the reified draw commands to an abstract buffer, in order. -/
def applyCmds {Buf : Type} (applyCmd : DrawCmd → Buf → Buf) (cmds : List DrawCmd)
    (b : Buf) : Buf :=
  cmds.foldl (fun acc c => applyCmd c acc) b

/-! ### Modelled collaborator behavior for the avatar block -/

/-- Modelled from the spec: a bordered block consumes one row at the top
and one at the bottom of its region, so the interior height is the region
height minus 2 (saturating at zero). -/
def borderedInnerHeight (h : Nat) : Nat := h - 2

/-- Modelled from the spec: the external paragraph widget paints line `i`
of its text exactly when `i` is below the interior height (no wrapping or
scrolling is configured by the source). -/
def paragraphPaintsLine (innerHeight i : Nat) : Bool := i < innerHeight

/-! ### Concrete inputs used by witnesses and counterexamples -/

/-- A concrete splitter satisfying the two split-primitive contracts: each
`Length c` constraint is granted exactly `c` cells along the split
direction, percentages are granted a zero-sized rectangle. -/
def demoSplitter : Splitter := fun req =>
  req.constraints.map (fun c =>
    match c, req.dir with
    | .length n, .vertical => { x := 0, y := 0, width := req.area.width, height := n }
    | .length n, .horizontal => { x := 0, y := 0, width := n, height := req.area.height }
    | .percentage _, _ => { x := 0, y := 0, width := 0, height := 0 })

/-- A concrete 80x24 viewport. -/
def rect0 : RRect := { x := 0, y := 0, width := 80, height := 24 }

/-- The spec's scenario content: title "OK", subtitle "v1", a two-line
avatar, two table rows, one footer line. -/
def demoDashboard : Dashboard :=
  { general_title := "OK", subtitle := "v1", avatar := "ab\ncd",
    table := [{ left := "start", right := "s" }, { left := "quit", right := "q" }],
    footer := ["press q to quit"] }

/-- A dashboard whose table has 65534 rows: the `u16` height computation
wraps for it. -/
def dBigTable : Dashboard := { table := List.replicate 65534 {} }

/-- A dashboard whose title has 16384 characters: the `u16` width
computation wraps for it. -/
def dBigTitle : Dashboard := { general_title := String.mk (List.replicate 16384 'a') }

/-- A dashboard whose avatar is a single line of 65536 characters: the
`as u16` cast of the measured width wraps for it. -/
def dWideAvatar : Dashboard := { avatar := String.mk (List.replicate 65536 'a') }

/-! ### List and splitter helper lemmas -/

theorem len2_eq {α : Type} (l : List α) (h : l.length = 2) : ∃ a b, l = [a, b] := by
  cases l with
  | nil => simp at h
  | cons a t =>
    cases t with
    | nil => simp at h
    | cons b t2 =>
      cases t2 with
      | nil => exact ⟨a, b, rfl⟩
      | cons c t3 => simp [List.length] at h

theorem len1_eq {α : Type} (l : List α) (h : l.length = 1) : ∃ a, l = [a] := by
  cases l with
  | nil => simp at h
  | cons a t =>
    cases t with
    | nil => exact ⟨a, rfl⟩
    | cons b t2 => simp [List.length] at h

theorem demoSplitter_ok : SplitLenOk demoSplitter := by
  intro req
  simp [demoSplitter]

theorem demoSplitter_bounded : SplitLenBounded demoSplitter := by
  intro req i c r hc hr
  rw [demoSplitter, List.get?_map, hc] at hr
  refine ⟨fun h => ?_, fun h => ?_⟩
  · rw [h] at hr
    simp at hr
    rw [← hr]
  · rw [h] at hr
    simp at hr
    rw [← hr]

/-! ### Measurement lemmas -/

theorem measureTableAux_snd (w : String → Nat) (l : List RLine) :
    ∀ a h : Nat, h < 65536 →
      (l.foldl (fun acc x => (max acc.1 (x.widthW w + 2), u16 (acc.2 + 1))) (a, h)).2 =
        (h + l.length) % 65536 := by
  induction l with
  | nil =>
    intro a h hh
    simpa using (Nat.mod_eq_of_lt hh).symm
  | cons x t ih =>
    intro a h hh
    simp only [List.foldl_cons]
    rw [ih _ (u16 (h + 1)) (Nat.mod_lt _ (by norm_num))]
    simp only [u16, List.length_cons]
    omega

theorem measureTable_snd (w : String → Nat) (l : List RLine) :
    (measureTable w l).2 = l.length % 65536 := by
  have := measureTableAux_snd w l 0 0 (by norm_num)
  simpa [measureTable] using this

theorem measureTableAux_fst (w : String → Nat) (l : List RLine) :
    ∀ a h : Nat,
      (l.foldl (fun acc x => (max acc.1 (x.widthW w + 2), u16 (acc.2 + 1))) (a, h)).1 =
        l.foldl (fun m x => max m (x.widthW w + 2)) a := by
  induction l with
  | nil => intro a h; rfl
  | cons x t ih =>
    intro a h
    simp only [List.foldl_cons]
    exact ih _ _

theorem measureTable_fst (w : String → Nat) (l : List RLine) :
    (measureTable w l).1 = l.foldl (fun m x => max m (x.widthW w + 2)) 0 := by
  have := measureTableAux_fst w l 0 0
  simpa [measureTable] using this

theorem foldl_max_add_two_aux (l : List Nat) :
    ∀ a : Nat, l.foldl (fun m x => max m (x + 2)) (a + 2) = l.foldl max a + 2 := by
  induction l with
  | nil => intro a; rfl
  | cons x t ih =>
    intro a
    simp only [List.foldl_cons]
    rw [max_add_add_right, ih]

theorem foldl_max_add_two (l : List Nat) (h : l ≠ []) :
    l.foldl (fun m x => max m (x + 2)) 0 = l.foldl max 0 + 2 := by
  cases l with
  | nil => exact absurd rfl h
  | cons x t =>
    simp only [List.foldl_cons]
    have h0 : max 0 (x + 2) = x + 2 := by omega
    have h1 : (max 0 x : Nat) = x := by omega
    rw [h0, h1, foldl_max_add_two_aux]

theorem measureAvatarAux_fst (w : String → Nat) (l : List RLine) :
    ∀ a h : Nat,
      (l.foldl (fun acc x => (max acc.1 (x.widthW w), acc.2 + 1)) (a, h)).1 =
        l.foldl (fun m x => max m (x.widthW w)) a := by
  induction l with
  | nil => intro a h; rfl
  | cons x t ih =>
    intro a h
    simp only [List.foldl_cons]
    exact ih _ _

theorem measureAvatarAux_snd (w : String → Nat) (l : List RLine) :
    ∀ a h : Nat,
      (l.foldl (fun acc x => (max acc.1 (x.widthW w), acc.2 + 1)) (a, h)).2 =
        h + l.length := by
  induction l with
  | nil => intro a h; simp
  | cons x t ih =>
    intro a h
    simp only [List.foldl_cons]
    rw [ih]
    simp only [List.length_cons]
    omega

theorem avatarLines_widthW (w : String → Nat) (i : String) :
    RLine.widthW w { spans := [strColored RColor.lightBlue i] } = w i := by
  simp [RLine.widthW, strColored]

theorem measureAvatar_eq (w : String → Nat) (avatar : String) :
    measureAvatar w (avatarLines avatar) = (avatarMaxWidth w avatar, avatarLineCount avatar) := by
  apply Prod.ext
  · rw [measureAvatar, measureAvatarAux_fst, avatarMaxWidth, avatarLines, List.foldl_map,
      List.foldl_map]
    simp only [avatarLines_widthW]
  · rw [measureAvatar, measureAvatarAux_snd, avatarLineCount, avatarLines, List.length_map]
    simp

/-! ### Table-line lemmas -/

theorem tableLines_length (t : List TableItem) (sel : Option Nat) :
    (tableLines t sel).length = t.length := by
  simp [tableLines]

theorem tableLines_get (t : List TableItem) (sel : Option Nat) (j : Nat)
    (hj : j < (tableLines t sel).length) (hj' : j < t.length) :
    (tableLines t sel).get ⟨j, hj⟩ = toLine sel j (t.get ⟨j, hj'⟩) := by
  simp [tableLines, List.getElem_enum]

theorem toLine_style (sel : Option Nat) (j : Nat) (a : TableItem) :
    (toLine sel j a).style = rowStyle sel j := rfl

theorem rowStyle_eq_if (sel : Option Nat) (j : Nat) :
    rowStyle sel j = if sel = some j then emphasizedStyle else {} := by
  cases sel with
  | none => simp [rowStyle]
  | some i =>
    by_cases h : i = j <;> simp [rowStyle, h]

theorem default_ne_emphasized : ({} : RStyle) ≠ emphasizedStyle := by decide

theorem tableLines_getElem? (t : List TableItem) (sel : Option Nat) (j : Nat) :
    (tableLines t sel)[j]? = (t[j]?).map (toLine sel j) := by
  simp only [tableLines, List.getElem?_map, List.getElem?_enum, Option.map_map]
  cases t[j]? <;> rfl

/-! ### Renderer characterization lemmas -/

theorem renderHeader_spec (s : Splitter) (d : Dashboard) (area : RRect)
    (hs : SplitLenOk s) :
    ∃ t1 t2 c1 c2,
      s (headerBandReq area) = [t1, t2] ∧
      renderHeader s d area = some
        { bandReq := headerBandReq area,
          titleReq := titleCenterReq d.general_title t1,
          subtitleReq := subtitleCenterReq d.subtitle t2,
          cmds := [.bigText ((RLine.raw d.general_title).setStyle
                      (({} : RStyle).withFg .lightRed)) c1,
                   .textLine ((RLine.raw d.subtitle).setStyle
                      ((({} : RStyle).withFg .blue).withBold)) c2] } := by
  have h2 : (s (headerBandReq area)).length = 2 := hs _
  obtain ⟨t1, t2, h12⟩ := len2_eq _ h2
  have hT : (s (titleCenterReq d.general_title t1)).length = 1 := hs _
  obtain ⟨c1, hc1⟩ := len1_eq _ hT
  have hS : (s (subtitleCenterReq d.subtitle t2)).length = 1 := hs _
  obtain ⟨c2, hc2⟩ := len1_eq _ hS
  refine ⟨t1, t2, c1, c2, h12, ?_⟩
  simp [renderHeader, h12, hc1, hc2, toPair]

theorem renderTable_spec (w : String → Nat) (s : Splitter) (d : Dashboard) (area : RRect)
    (st : TableState) (hs : SplitLenOk s) :
    ∃ x1 x2 y1 y2,
      s (tableColumnsReq area) = [x1, x2] ∧
      s (tableRegionReq (measureTable w (tableLines d.table st.selected)).2 x2) = [y1, y2] ∧
      renderTable w s d area st = some
        ({ hReq := tableColumnsReq area,
           vReq := tableRegionReq (measureTable w (tableLines d.table st.selected)).2 x2,
           rows := tableLines d.table st.selected,
           tableWidth := (measureTable w (tableLines d.table st.selected)).1,
           tableHeight := (measureTable w (tableLines d.table st.selected)).2,
           widths := tableWidths,
           block := d.table_block.getD RBlock.bordered,
           tableRect := y2,
           cmd := DrawCmd.table ((tableLines d.table st.selected).map RLine.spans)
             tableWidths " >> " (some .cyan) (d.table_block.getD RBlock.bordered) y2 st }, d) := by
  have h2 : (s (tableColumnsReq area)).length = 2 := hs _
  obtain ⟨x1, x2, hx⟩ := len2_eq _ h2
  have h2v : (s (tableRegionReq (measureTable w (tableLines d.table st.selected)).2 x2)).length = 2 :=
    hs _
  obtain ⟨y1, y2, hy⟩ := len2_eq _ h2v
  refine ⟨x1, x2, y1, y2, hx, hy, ?_⟩
  simp [renderTable, hx, hy, toPair]

theorem renderAvatar_spec (w : String → Nat) (s : Splitter) (d : Dashboard) (area : RRect)
    (hs : SplitLenOk s) :
    ∃ l1 l2 t1 t2,
      s (avatarColumnReq (avatarMaxWidth w d.avatar) area) = [l1, l2] ∧
      s (avatarRowReq (avatarLineCount d.avatar) l2) = [t1, t2] ∧
      renderAvatar w s d area = some
        { hReq := avatarColumnReq (avatarMaxWidth w d.avatar) area,
          vReq := avatarRowReq (avatarLineCount d.avatar) l2,
          lines := avatarLines d.avatar,
          avatarWidth := avatarMaxWidth w d.avatar,
          avatarHeight := avatarLineCount d.avatar,
          block := d.avatar_block.getD RBlock.bordered,
          rect := t2,
          cmd := .paragraph (avatarLines d.avatar)
            (some (d.avatar_block.getD RBlock.bordered)) false {} t2 } := by
  have hm : measureAvatar w (avatarLines d.avatar)
      = (avatarMaxWidth w d.avatar, avatarLineCount d.avatar) := measureAvatar_eq w d.avatar
  have h2 : (s (avatarColumnReq (avatarMaxWidth w d.avatar) area)).length = 2 := hs _
  obtain ⟨l1, l2, h12⟩ := len2_eq _ h2
  have h2v : (s (avatarRowReq (avatarLineCount d.avatar) l2)).length = 2 := hs _
  obtain ⟨t1, t2, h12v⟩ := len2_eq _ h2v
  refine ⟨l1, l2, t1, t2, h12, h12v, ?_⟩
  simp [renderAvatar, hm, h12, h12v, toPair]

theorem renderFooter_spec (s : Splitter) (d : Dashboard) (area : RRect)
    (hs : SplitLenOk s) :
    ∃ b1 b2,
      s (footerReq area) = [b1, b2] ∧
      renderFooter s d area = some
        { req := footerReq area,
          cmd := .paragraph (d.footer.map RLine.raw) none true
            ((((({} : RStyle).withBold).withFg .lightCyan).withItalic)) b2 } := by
  have h2 : (s (footerReq area)).length = 2 := hs _
  obtain ⟨b1, b2, hb⟩ := len2_eq _ h2
  refine ⟨b1, b2, hb, ?_⟩
  simp [renderFooter, hb, toPair]

theorem render_spec (w : String → Nat) (s : Splitter) (d : Dashboard) (area : RRect)
    (st : TableState) (hs : SplitLenOk s) :
    ∃ cmds, Dashboard.render w s d area st = some (cmds, d) := by
  obtain ⟨t1, t2, c1, c2, -, hH⟩ := renderHeader_spec s d area hs
  obtain ⟨x1, x2, y1, y2, -, -, hT⟩ := renderTable_spec w s d area st hs
  obtain ⟨l1, l2, u1, u2, -, -, hA⟩ := renderAvatar_spec w s d area hs
  obtain ⟨b1, b2, -, hF⟩ := renderFooter_spec s d area hs
  exact ⟨[DrawCmd.bigText ((RLine.raw d.general_title).setStyle
            (({} : RStyle).withFg .lightRed)) c1,
          DrawCmd.textLine ((RLine.raw d.subtitle).setStyle
            ((({} : RStyle).withFg .blue).withBold)) c2,
          DrawCmd.table ((tableLines d.table st.selected).map RLine.spans) tableWidths " >> "
            (some .cyan) (d.table_block.getD RBlock.bordered) y2 st,
          DrawCmd.paragraph (avatarLines d.avatar)
            (some (d.avatar_block.getD RBlock.bordered)) false {} u2,
          DrawCmd.paragraph (d.footer.map RLine.raw) none true
            ((((({} : RStyle).withBold).withFg .lightCyan).withItalic)) b2],
    by simp [Dashboard.render, hH, hT, hA, hF]⟩

/-! ### Computations on the concrete wrap-around inputs -/

theorem splitNl_no_newline (l : List Char) (h : '\n' ∉ l) : splitNl l = [l] := by
  induction l with
  | nil => rfl
  | cons c t ih =>
    have hc : ¬ c = '\n' := fun e => h (by rw [e]; exact List.mem_cons_self _ _)
    rw [splitNl, if_neg hc, ih (fun m => h (List.mem_cons_of_mem _ m))]

theorem rustLines_wide :
    rustLines (String.mk (List.replicate 65536 'a')) = [String.mk (List.replicate 65536 'a')] := by
  have hnl : '\n' ∉ List.replicate 65536 'a' := fun hm =>
    absurd (List.eq_of_mem_replicate hm) (by decide)
  have hne : List.replicate 65536 'a' ≠ ([] : List Char) := by
    intro he
    have h0 : (List.replicate 65536 'a').length = 0 := by rw [he]; rfl
    rw [List.length_replicate] at h0
    exact absurd h0 (by norm_num)
  have hlast : (List.replicate 65536 'a').getLast? = some 'a' := by
    rw [show (65536 : Nat) = 65535 + 1 from rfl, List.replicate_succ', List.getLast?_concat]
  have hstrip : stripCr (List.replicate 65536 'a') = List.replicate 65536 'a' := by
    unfold stripCr
    rw [hlast, if_neg (by decide)]
  have hsplit : splitNl (String.mk (List.replicate 65536 'a')).data
      = [List.replicate 65536 'a'] := splitNl_no_newline _ hnl
  have hcond : ([List.replicate 65536 'a'] : List (List Char)).getLast?
      = some (List.replicate 65536 'a') := rfl
  simp only [rustLines, hsplit, hcond]
  rw [if_neg (fun h => hne (Option.some.inj h))]
  simp only [List.map_cons, List.map_nil, hstrip]

theorem avatarMaxWidth_wide :
    avatarMaxWidth String.length dWideAvatar.avatar = 65536 := by
  have h1 : dWideAvatar.avatar = String.mk (List.replicate 65536 'a') := rfl
  unfold avatarMaxWidth
  rw [h1, rustLines_wide]
  have h2 : (String.mk (List.replicate 65536 'a')).length = 65536 := by
    show (List.replicate 65536 'a').length = 65536
    rw [List.length_replicate]
  simp only [List.map_cons, List.map_nil, h2, List.foldl_cons, List.foldl_nil]
  omega

theorem bigTitle_length : dBigTitle.general_title.length = 16384 := by
  show (List.replicate 16384 'a').length = 16384
  rw [List.length_replicate]

theorem bigTable_length : dBigTable.table.length = 65534 := by
  show (List.replicate 65534 ({} : TableItem)).length = 65534
  rw [List.length_replicate]

/-! ### Claim theorems -/

/-- Claim C1 (amended): for every dashboard content with `n ≤ 65533` table
rows and every viewport, the table renderer requests a final table region
of height `n + 2`; in particular an empty row sequence yields a region
height of 2 and the empty bordered table is rendered without error.  (The
row count and the `+ 2` are computed in 16-bit arithmetic, so for
`n ≥ 65534` the requested height wraps modulo 65536 instead of being
`n + 2`.) -/
theorem table_region_height (w : String → Nat) (s : Splitter) (d : Dashboard)
    (area : RRect) (st : TableState) (hs : SplitLenOk s)
    (hn : d.table.length ≤ 65533) :
    ∃ pd, renderTable w s d area st = some pd ∧
      pd.1.vReq.constraints
        = [RConstraint.percentage 20, RConstraint.length (d.table.length + 2)] ∧
      (d.table = [] →
        pd.1.vReq.constraints = [RConstraint.percentage 20, RConstraint.length 2]) := by
  obtain ⟨x1, x2, y1, y2, hx, hy, heq⟩ := renderTable_spec w s d area st hs
  have hu : u16 ((measureTable w (tableLines d.table st.selected)).2 + 2)
      = d.table.length + 2 := by
    rw [measureTable_snd, tableLines_length]
    simp only [u16]
    omega
  refine ⟨_, heq, ?_, ?_⟩
  · show (tableRegionReq (measureTable w (tableLines d.table st.selected)).2 x2).constraints = _
    rw [tableRegionReq, hu]
  · intro he
    show (tableRegionReq (measureTable w (tableLines d.table st.selected)).2 x2).constraints = _
    rw [tableRegionReq, hu, he]
    rfl

/-- Witness for C1 at the spec's scenario content (two table rows): the
requested table region height is 4, and the hypotheses are satisfied by
the demonstration splitter. -/
theorem table_region_height_witness :
    ∃ pd, renderTable String.length demoSplitter demoDashboard rect0 {} = some pd ∧
      pd.1.vReq.constraints
        = [RConstraint.percentage 20, RConstraint.length (demoDashboard.table.length + 2)] ∧
      (demoDashboard.table = [] →
        pd.1.vReq.constraints = [RConstraint.percentage 20, RConstraint.length 2]) :=
  table_region_height String.length demoSplitter demoDashboard rect0 {} demoSplitter_ok
    (by decide)

/-- Counterexample to C1 as stated: with 65534 table rows the `u16` height
computation wraps, so the requested height is 0, not `65534 + 2`. -/
theorem table_region_height_ce :
    ∃ pd, renderTable String.length demoSplitter dBigTable rect0 {} = some pd ∧
      pd.1.vReq.constraints = [RConstraint.percentage 20, RConstraint.length 0] ∧
      pd.1.vReq.constraints
        ≠ [RConstraint.percentage 20, RConstraint.length (dBigTable.table.length + 2)] := by
  obtain ⟨x1, x2, y1, y2, hx, hy, heq⟩ :=
    renderTable_spec String.length demoSplitter dBigTable rect0 {} demoSplitter_ok
  have hu : u16 ((measureTable String.length
        (tableLines dBigTable.table (TableState.selected {}))).2 + 2) = 0 := by
    rw [measureTable_snd, tableLines_length, bigTable_length]
    decide
  refine ⟨_, heq, ?_, ?_⟩
  · show (tableRegionReq _ x2).constraints = _
    rw [tableRegionReq, hu]
  · show (tableRegionReq _ x2).constraints ≠ _
    rw [tableRegionReq, hu, bigTable_length]
    show [RConstraint.percentage 20, RConstraint.length 0]
        ≠ [RConstraint.percentage 20, RConstraint.length (65534 + 2)]
    decide

/-- Claim C3: under the hypothesis that the split primitive returns
exactly one sub-rectangle per constraint, a full render call never panics:
every unwrapped two-element conversion succeeds, for every content, cursor
and viewport. -/
theorem render_never_panics (w : String → Nat) (s : Splitter) (d : Dashboard)
    (area : RRect) (st : TableState) (hs : SplitLenOk s) :
    (Dashboard.render w s d area st).isSome := by
  obtain ⟨cmds, h⟩ := render_spec w s d area st hs
  rw [h]
  rfl

/-- Witness for C3 at the scenario content and the demonstration
splitter. -/
theorem render_never_panics_witness :
    (Dashboard.render String.length demoSplitter demoDashboard rect0 {}).isSome :=
  render_never_panics String.length demoSplitter demoDashboard rect0 {} demoSplitter_ok

/-- Claim C6: rendering is deterministic and idempotent — two render calls
with equal width measure, splitter, content, viewport and cursor, applied
to the same freshly-cleared buffer, produce identical final buffer
contents (and the calls succeed). -/
theorem render_idempotent {Buf : Type} (applyCmd : DrawCmd → Buf → Buf) (fresh : Buf)
    (w1 w2 : String → Nat) (s1 s2 : Splitter) (d1 d2 : Dashboard) (a1 a2 : RRect)
    (st1 st2 : TableState) (hs : SplitLenOk s1) (hw : w1 = w2) (hsp : s1 = s2)
    (hd : d1 = d2) (ha : a1 = a2) (hst : st1 = st2) :
    (Dashboard.render w1 s1 d1 a1 st1).map (fun out => applyCmds applyCmd out.1 fresh)
      = (Dashboard.render w2 s2 d2 a2 st2).map (fun out => applyCmds applyCmd out.1 fresh)
    ∧ (Dashboard.render w1 s1 d1 a1 st1).isSome := by
  subst hw hsp hd ha hst
  obtain ⟨cmds, h⟩ := render_spec w1 s1 d1 a1 st1 hs
  exact ⟨rfl, by rw [h]; rfl⟩

/-- Witness for C6: the two calls at the scenario content write the same
command list into a concrete list-shaped buffer. -/
theorem render_idempotent_witness :
    ((Dashboard.render String.length demoSplitter demoDashboard rect0 {}).map
        (fun out => applyCmds (fun c b => b ++ [c]) out.1 ([] : List DrawCmd))
      = (Dashboard.render String.length demoSplitter demoDashboard rect0 {}).map
        (fun out => applyCmds (fun c b => b ++ [c]) out.1 ([] : List DrawCmd)))
    ∧ (Dashboard.render String.length demoSplitter demoDashboard rect0 {}).isSome :=
  render_idempotent (fun c b => b ++ [c]) [] String.length String.length demoSplitter
    demoSplitter demoDashboard demoDashboard rect0 rect0 {} {} demoSplitter_ok
    rfl rfl rfl rfl rfl

/-- Claim C9: rendering never mutates the dashboard content — the
dashboard value coming out of a full render call (threaded through the
`&mut self` table renderer) equals the input dashboard, every field
included. -/
theorem render_preserves_dashboard (w : String → Nat) (s : Splitter) (d : Dashboard)
    (area : RRect) (st : TableState) (hs : SplitLenOk s) :
    ∃ out, Dashboard.render w s d area st = some out ∧ out.2 = d := by
  obtain ⟨cmds, h⟩ := render_spec w s d area st hs
  exact ⟨(cmds, d), h, rfl⟩

/-- Witness for C9 at the scenario content. -/
theorem render_preserves_dashboard_witness :
    ∃ out, Dashboard.render String.length demoSplitter demoDashboard rect0 {} = some out ∧
      out.2 = demoDashboard :=
  render_preserves_dashboard String.length demoSplitter demoDashboard rect0 {}
    demoSplitter_ok

/-- Claim C2: for every table and selection cursor, a valid cursor index
`i < n` gives the emphasized (bold, italic, underlined) style to exactly
row `i`; a cursor `i ≥ n` or no cursor gives it to no row. -/
theorem table_selection_highlight (w : String → Nat) (s : Splitter) (d : Dashboard)
    (area : RRect) (st : TableState) (hs : SplitLenOk s) :
    ∃ pd, renderTable w s d area st = some pd ∧
      (∀ i, st.selected = some i → i < d.table.length →
        ∀ (j : Nat) (row : RLine), pd.1.rows[j]? = some row → (row.style = emphasizedStyle ↔ j = i)) ∧
      (∀ i, st.selected = some i → d.table.length ≤ i →
        ∀ (j : Nat) (row : RLine), pd.1.rows[j]? = some row → row.style ≠ emphasizedStyle) ∧
      (st.selected = none →
        ∀ (j : Nat) (row : RLine), pd.1.rows[j]? = some row → row.style ≠ emphasizedStyle) := by
  obtain ⟨x1, x2, y1, y2, hx, hy, heq⟩ := renderTable_spec w s d area st hs
  refine ⟨_, heq, ?_, ?_, ?_⟩
  · intro i hi hlt j row hrow
    simp only [tableLines_getElem?] at hrow
    cases ht : d.table[j]? with
    | none => rw [ht] at hrow; cases hrow
    | some a =>
      rw [ht] at hrow
      simp only [Option.map_some'] at hrow
      have hrs : row.style = rowStyle st.selected j := by
        rw [← Option.some.inj hrow]
        rfl
      rw [hrs, hi]
      simp only [rowStyle]
      by_cases hij : i = j
      · rw [if_pos hij, hij]
        simp
      · rw [if_neg hij]
        constructor
        · intro he
          exact absurd he default_ne_emphasized
        · intro he
          exact absurd he.symm hij
  · intro i hi hge j row hrow
    simp only [tableLines_getElem?] at hrow
    cases ht : d.table[j]? with
    | none => rw [ht] at hrow; cases hrow
    | some a =>
      rw [ht] at hrow
      simp only [Option.map_some'] at hrow
      have hjlt : j < d.table.length := by
        obtain ⟨hlt, -⟩ := List.getElem?_eq_some.mp ht
        exact hlt
      have hij : ¬ i = j := by omega
      have hrs : row.style = rowStyle st.selected j := by
        rw [← Option.some.inj hrow]
        rfl
      rw [hrs, hi]
      simp only [rowStyle, if_neg hij]
      exact fun he => absurd he default_ne_emphasized
  · intro hnone j row hrow
    simp only [tableLines_getElem?] at hrow
    cases ht : d.table[j]? with
    | none => rw [ht] at hrow; cases hrow
    | some a =>
      rw [ht] at hrow
      simp only [Option.map_some'] at hrow
      have hrs : row.style = rowStyle st.selected j := by
        rw [← Option.some.inj hrow]
        rfl
      rw [hrs, hnone]
      simp only [rowStyle]
      exact fun he => absurd he default_ne_emphasized

/-- Witness for C2 at the spec's scenario: cursor 1 over two rows. -/
theorem table_selection_highlight_witness :
    ∃ pd, renderTable String.length demoSplitter demoDashboard rect0
        { selected := some 1 } = some pd ∧
      (∀ i, ({ selected := some 1 } : TableState).selected = some i →
        i < demoDashboard.table.length →
        ∀ (j : Nat) (row : RLine), pd.1.rows[j]? = some row → (row.style = emphasizedStyle ↔ j = i)) ∧
      (∀ i, ({ selected := some 1 } : TableState).selected = some i →
        demoDashboard.table.length ≤ i →
        ∀ (j : Nat) (row : RLine), pd.1.rows[j]? = some row → row.style ≠ emphasizedStyle) ∧
      (({ selected := some 1 } : TableState).selected = none →
        ∀ (j : Nat) (row : RLine), pd.1.rows[j]? = some row → row.style ≠ emphasizedStyle) :=
  table_selection_highlight String.length demoSplitter demoDashboard rect0
    { selected := some 1 } demoSplitter_ok

/-- Claim C8: every rendered table row line carries the label span on the
left and the upper-cased value span (light red, bold) on the right, with
the emphasized style on the selected row and the default style
elsewhere. -/
theorem table_row_rendering (w : String → Nat) (s : Splitter) (d : Dashboard)
    (area : RRect) (st : TableState) (hs : SplitLenOk s) :
    ∃ pd, renderTable w s d area st = some pd ∧
      ∀ (j : Nat) (item : TableItem), d.table[j]? = some item →
        pd.1.rows[j]? = some
          ({ spans := [{ content := item.left,
                         style := if st.selected = some j then emphasizedStyle else {} },
                       { content := item.right.toUpper,
                         style := { fg := some RColor.lightRed, bold := true } }],
             style := if st.selected = some j then emphasizedStyle else {} } : RLine) := by
  obtain ⟨x1, x2, y1, y2, hx, hy, heq⟩ := renderTable_spec w s d area st hs
  refine ⟨_, heq, ?_⟩
  intro j item hj
  simp only [tableLines_getElem?]
  rw [hj]
  simp only [Option.map_some']
  congr 1
  simp only [toLine, strColored, RSpan.setStyle, RSpan.bolded, RStyle.withFg,
    RStyle.withBold, RLine.setStyle, rowStyle_eq_if]

/-- Witness for C8 at the spec's scenario: cursor 1, rows
("start","s"), ("quit","q"). -/
theorem table_row_rendering_witness :
    ∃ pd, renderTable String.length demoSplitter demoDashboard rect0
        { selected := some 1 } = some pd ∧
      ∀ (j : Nat) (item : TableItem), demoDashboard.table[j]? = some item →
        pd.1.rows[j]? = some
          ({ spans := [{ content := item.left,
                         style := if ({ selected := some 1 } : TableState).selected = some j
                           then emphasizedStyle else {} },
                       { content := item.right.toUpper,
                         style := { fg := some RColor.lightRed, bold := true } }],
             style := if ({ selected := some 1 } : TableState).selected = some j
               then emphasizedStyle else {} } : RLine) :=
  table_row_rendering String.length demoSplitter demoDashboard rect0
    { selected := some 1 } demoSplitter_ok

/-- Claim C5 (amended): for every title of at most 16383 characters and
subtitle of at most 65535 characters, the header renderer requests a
centered title sub-region of width `4 ×` the title's character count and a
centered subtitle sub-region of width equal to the subtitle's character
count.  (Both widths are computed in `u16` arithmetic, so beyond those
bounds they wrap modulo 65536.) -/
theorem header_subregion_widths (s : Splitter) (d : Dashboard) (area : RRect)
    (hs : SplitLenOk s) (ht : d.general_title.length ≤ 16383)
    (hsub : d.subtitle.length ≤ 65535) :
    ∃ hp, renderHeader s d area = some hp ∧
      hp.titleReq.constraints = [RConstraint.length (4 * d.general_title.length)] ∧
      hp.titleReq.flex = RFlex.center ∧
      hp.subtitleReq.constraints = [RConstraint.length d.subtitle.length] ∧
      hp.subtitleReq.flex = RFlex.center := by
  obtain ⟨t1, t2, c1, c2, hband, heq⟩ := renderHeader_spec s d area hs
  have h1 : u16 (u16 d.general_title.length * 4) = 4 * d.general_title.length := by
    simp only [u16]
    omega
  have h2 : u16 d.subtitle.length = d.subtitle.length := by
    simp only [u16]
    omega
  refine ⟨_, heq, ?_, rfl, ?_, rfl⟩
  · show (titleCenterReq d.general_title t1).constraints = _
    rw [titleCenterReq, h1]
  · show (subtitleCenterReq d.subtitle t2).constraints = _
    rw [subtitleCenterReq, h2]

/-- Witness for C5 at the scenario content (title "OK", subtitle "v1"):
requested widths 8 and 2. -/
theorem header_subregion_widths_witness :
    ∃ hp, renderHeader demoSplitter demoDashboard rect0 = some hp ∧
      hp.titleReq.constraints
        = [RConstraint.length (4 * demoDashboard.general_title.length)] ∧
      hp.titleReq.flex = RFlex.center ∧
      hp.subtitleReq.constraints = [RConstraint.length demoDashboard.subtitle.length] ∧
      hp.subtitleReq.flex = RFlex.center :=
  header_subregion_widths demoSplitter demoDashboard rect0 demoSplitter_ok
    (by decide) (by decide)

/-- Counterexample to C5 as stated: a title of 16384 characters wraps the
`u16` product `16384 * 4` to 0, so the requested width is 0, not
`4 × 16384`. -/
theorem header_title_width_ce :
    ∃ hp, renderHeader demoSplitter dBigTitle rect0 = some hp ∧
      hp.titleReq.constraints = [RConstraint.length 0] ∧
      hp.titleReq.constraints ≠ [RConstraint.length (4 * dBigTitle.general_title.length)] := by
  obtain ⟨t1, t2, c1, c2, hband, heq⟩ :=
    renderHeader_spec demoSplitter dBigTitle rect0 demoSplitter_ok
  have h1 : u16 (u16 dBigTitle.general_title.length * 4) = 0 := by
    rw [bigTitle_length]
    decide
  refine ⟨_, heq, ?_, ?_⟩
  · show (titleCenterReq dBigTitle.general_title t1).constraints = _
    rw [titleCenterReq, h1]
  · show (titleCenterReq dBigTitle.general_title t1).constraints ≠ _
    rw [titleCenterReq, h1, bigTitle_length]
    show [RConstraint.length 0] ≠ [RConstraint.length (4 * 16384)]
    decide

/-- Claim C4 (amended): for every avatar text whose maximum line display
width and line count are below 65536, the avatar renderer requests a
region of width equal to the maximum line display width and height equal
to the line count; an empty avatar text yields zero for both.  (Both
measurements pass through an `as u16` cast, so larger values wrap modulo
65536.) -/
theorem avatar_region_measured (w : String → Nat) (s : Splitter) (d : Dashboard)
    (area : RRect) (hs : SplitLenOk s) (hwid : avatarMaxWidth w d.avatar ≤ 65535)
    (hcnt : avatarLineCount d.avatar ≤ 65535) :
    ∃ ap, renderAvatar w s d area = some ap ∧
      ap.hReq.constraints
        = [RConstraint.percentage 8, RConstraint.length (avatarMaxWidth w d.avatar)] ∧
      ap.vReq.constraints
        = [RConstraint.percentage 20, RConstraint.length (avatarLineCount d.avatar)] ∧
      (d.avatar = "" →
        ap.hReq.constraints = [RConstraint.percentage 8, RConstraint.length 0] ∧
        ap.vReq.constraints = [RConstraint.percentage 20, RConstraint.length 0]) := by
  obtain ⟨l1, l2, t1, t2, hh, hv, heq⟩ := renderAvatar_spec w s d area hs
  have h1 : u16 (avatarMaxWidth w d.avatar) = avatarMaxWidth w d.avatar := by
    simp only [u16]
    omega
  have h2 : u16 (avatarLineCount d.avatar) = avatarLineCount d.avatar := by
    simp only [u16]
    omega
  refine ⟨_, heq, ?_, ?_, ?_⟩
  · show (avatarColumnReq (avatarMaxWidth w d.avatar) area).constraints = _
    rw [avatarColumnReq, h1]
  · show (avatarRowReq (avatarLineCount d.avatar) l2).constraints = _
    rw [avatarRowReq, h2]
  · intro he
    have hm0 : avatarMaxWidth w d.avatar = 0 := by rw [he]; rfl
    have hc0 : avatarLineCount d.avatar = 0 := by rw [he]; rfl
    constructor
    · show (avatarColumnReq (avatarMaxWidth w d.avatar) area).constraints = _
      rw [avatarColumnReq, h1, hm0]
    · show (avatarRowReq (avatarLineCount d.avatar) l2).constraints = _
      rw [avatarRowReq, h2, hc0]

/-- Witness for C4 at the scenario avatar "ab\ncd": requested width 2 and
height 2. -/
theorem avatar_region_measured_witness :
    ∃ ap, renderAvatar String.length demoSplitter demoDashboard rect0 = some ap ∧
      ap.hReq.constraints
        = [RConstraint.percentage 8,
           RConstraint.length (avatarMaxWidth String.length demoDashboard.avatar)] ∧
      ap.vReq.constraints
        = [RConstraint.percentage 20,
           RConstraint.length (avatarLineCount demoDashboard.avatar)] ∧
      (demoDashboard.avatar = "" →
        ap.hReq.constraints = [RConstraint.percentage 8, RConstraint.length 0] ∧
        ap.vReq.constraints = [RConstraint.percentage 20, RConstraint.length 0]) :=
  avatar_region_measured String.length demoSplitter demoDashboard rect0
    demoSplitter_ok (by decide) (by decide)

/-- Counterexample to C4 as stated: a single avatar line of 65536
characters (each of display width 1) wraps the `as u16` cast, so the
requested width is 0, not the measured 65536. -/
theorem avatar_region_measured_ce :
    ∃ ap, renderAvatar String.length demoSplitter dWideAvatar rect0 = some ap ∧
      ap.hReq.constraints = [RConstraint.percentage 8, RConstraint.length 0] ∧
      ap.hReq.constraints
        ≠ [RConstraint.percentage 8,
           RConstraint.length (avatarMaxWidth String.length dWideAvatar.avatar)] := by
  obtain ⟨l1, l2, t1, t2, hh, hv, heq⟩ :=
    renderAvatar_spec String.length demoSplitter dWideAvatar rect0 demoSplitter_ok
  have h1 : u16 (avatarMaxWidth String.length dWideAvatar.avatar) = 0 := by
    rw [avatarMaxWidth_wide]
    decide
  refine ⟨_, heq, ?_, ?_⟩
  · show (avatarColumnReq (avatarMaxWidth String.length dWideAvatar.avatar) rect0).constraints = _
    rw [avatarColumnReq, h1]
  · show (avatarColumnReq (avatarMaxWidth String.length dWideAvatar.avatar) rect0).constraints ≠ _
    rw [avatarColumnReq, h1, avatarMaxWidth_wide]
    show [RConstraint.percentage 8, RConstraint.length 0]
        ≠ [RConstraint.percentage 8, RConstraint.length 65536]
    decide

/-- Claim C7: the table layout is fixed — the working column skips 36 %,
takes 57 % with a 3-cell horizontal inset, the final region skips the top
20 %, and the columns are split 95 %/5 %; the measured intrinsic width
(maximum row line width plus a 2-column pad) is computed but has no
influence on the layout (changing the width measure changes no request,
region or column split). -/
theorem table_layout_fixed (w w2 : String → Nat) (s : Splitter) (d : Dashboard)
    (area : RRect) (st : TableState) (hs : SplitLenOk s) :
    ∃ pd pd2, renderTable w s d area st = some pd ∧
      renderTable w2 s d area st = some pd2 ∧
      pd.1.hReq = { dir := RDir.horizontal,
                    constraints := [RConstraint.percentage 36, RConstraint.percentage 57],
                    hMargin := 3, area := area } ∧
      pd.1.vReq.dir = RDir.vertical ∧
      pd.1.vReq.constraints[0]? = some (RConstraint.percentage 20) ∧
      pd.1.widths = [RConstraint.percentage 95, RConstraint.percentage 5] ∧
      (d.table ≠ [] → pd.1.tableWidth
          = ((tableLines d.table st.selected).map (RLine.widthW w)).foldl max 0 + 2) ∧
      pd.1.hReq = pd2.1.hReq ∧ pd.1.vReq = pd2.1.vReq ∧ pd.1.widths = pd2.1.widths ∧
      pd.1.tableRect = pd2.1.tableRect := by
  obtain ⟨x1, x2, y1, y2, hx, hy, heq⟩ := renderTable_spec w s d area st hs
  obtain ⟨x1b, x2b, y1b, y2b, hxb, hyb, heqb⟩ := renderTable_spec w2 s d area st hs
  have hms : (measureTable w (tableLines d.table st.selected)).2
      = (measureTable w2 (tableLines d.table st.selected)).2 := by
    rw [measureTable_snd, measureTable_snd]
  have hxx : x2 = x2b := by
    have h' := hx.symm.trans hxb
    simp at h'
    exact h'.2
  have hyy : y2 = y2b := by
    rw [hms, hxx] at hy
    have h' := hy.symm.trans hyb
    simp at h'
    exact h'.2
  refine ⟨_, _, heq, heqb, rfl, rfl, rfl, rfl, ?_, rfl, ?_, rfl, hyy⟩
  · intro hne
    show (measureTable w (tableLines d.table st.selected)).1 = _
    rw [measureTable_fst]
    have hLne : tableLines d.table st.selected ≠ [] := by
      intro h0
      apply hne
      have hl := tableLines_length d.table st.selected
      rw [h0] at hl
      exact List.length_eq_zero.mp hl.symm
    have hfold := foldl_max_add_two ((tableLines d.table st.selected).map (RLine.widthW w))
      (fun hmap => hLne (List.map_eq_nil_iff.mp hmap))
    rw [List.foldl_map] at hfold
    exact hfold
  · show tableRegionReq (measureTable w (tableLines d.table st.selected)).2 x2 = _
    rw [hms, hxx]

/-- Witness for C7 at the scenario content, comparing the character-count
width measure against the constant-zero measure. -/
theorem table_layout_fixed_witness :
    ∃ pd pd2, renderTable String.length demoSplitter demoDashboard rect0 {} = some pd ∧
      renderTable (fun _ => 0) demoSplitter demoDashboard rect0 {} = some pd2 ∧
      pd.1.hReq = { dir := RDir.horizontal,
                    constraints := [RConstraint.percentage 36, RConstraint.percentage 57],
                    hMargin := 3, area := rect0 } ∧
      pd.1.vReq.dir = RDir.vertical ∧
      pd.1.vReq.constraints[0]? = some (RConstraint.percentage 20) ∧
      pd.1.widths = [RConstraint.percentage 95, RConstraint.percentage 5] ∧
      (demoDashboard.table ≠ [] → pd.1.tableWidth
          = ((tableLines demoDashboard.table (TableState.selected {})).map
              (RLine.widthW String.length)).foldl max 0 + 2) ∧
      pd.1.hReq = pd2.1.hReq ∧ pd.1.vReq = pd2.1.vReq ∧ pd.1.widths = pd2.1.widths ∧
      pd.1.tableRect = pd2.1.tableRect :=
  table_layout_fixed String.length (fun _ => 0) demoSplitter demoDashboard rect0 {}
    demoSplitter_ok

/-- Claim C10: the avatar paragraph is painted inside a bordered block
whose region is sized to the text's bounding box, so for a non-empty
avatar text of `n` lines the interior holds at most `n - 2` rows
(saturating at 0) and the last `min n 2` lines are never painted —
provided the split primitive never grants a `Length` constraint more than
it asks for. -/
theorem avatar_border_clipping (w : String → Nat) (s : Splitter) (d : Dashboard)
    (area : RRect) (hs : SplitLenOk s) (hb : SplitLenBounded s)
    (_hne : rustLines d.avatar ≠ []) :
    ∃ ap, renderAvatar w s d area = some ap ∧
      borderedInnerHeight ap.rect.height ≤ avatarLineCount d.avatar - 2 ∧
      (∀ i, avatarLineCount d.avatar - min (avatarLineCount d.avatar) 2 ≤ i →
        paragraphPaintsLine (borderedInnerHeight ap.rect.height) i = false) := by
  obtain ⟨l1, l2, t1, t2, hh, hv, heq⟩ := renderAvatar_spec w s d area hs
  have hcon : (avatarRowReq (avatarLineCount d.avatar) l2).constraints.get? 1
      = some (RConstraint.length (u16 (avatarLineCount d.avatar))) := rfl
  have hres : (s (avatarRowReq (avatarLineCount d.avatar) l2)).get? 1 = some t2 := by
    rw [hv]
    rfl
  have hbound : t2.height ≤ u16 (avatarLineCount d.avatar) :=
    (hb _ 1 _ _ hcon hres).1 rfl
  have hle : u16 (avatarLineCount d.avatar) ≤ avatarLineCount d.avatar := Nat.mod_le _ _
  refine ⟨_, heq, ?_, ?_⟩
  · show borderedInnerHeight t2.height ≤ _
    simp only [borderedInnerHeight]
    omega
  · intro i hi
    show paragraphPaintsLine (borderedInnerHeight t2.height) i = false
    simp only [paragraphPaintsLine, borderedInnerHeight, decide_eq_false_iff_not]
    omega

/-- Witness for C10 at the scenario avatar "ab\ncd" (two lines): the
interior height is 0 and no line with index at least 0 is painted. -/
theorem avatar_border_clipping_witness :
    ∃ ap, renderAvatar String.length demoSplitter demoDashboard rect0 = some ap ∧
      borderedInnerHeight ap.rect.height ≤ avatarLineCount demoDashboard.avatar - 2 ∧
      (∀ i, avatarLineCount demoDashboard.avatar
          - min (avatarLineCount demoDashboard.avatar) 2 ≤ i →
        paragraphPaintsLine (borderedInnerHeight ap.rect.height) i = false) :=
  avatar_border_clipping String.length demoSplitter demoDashboard rect0
    demoSplitter_ok demoSplitter_bounded (by decide)

end TuiDashboard
